import Mathlib

/-!
Verification of the report-pipeline scripts: a shallow embedding of the
version allocator, result extractors, publishers and notifier from the
repository's `scripts/` directory, with theorems settling the spec's
claims about them.  Files are modelled by their optional content
(`Option String`, `none` meaning the file is absent); HTTP calls are
modelled by an outcome supplied per attempt.
-/

namespace Pipeline

/-! ## Decimal strings: Python `int()` and `str()` on the counter file -/

/-- Whitespace characters stripped by Python's `str.strip()` / `int()`. -/
def isPySpace (c : Char) : Bool :=
  c = ' ' || c = '\t' || c = '\n' || c = '\r' || c = '\x0b' || c = '\x0c'

/-- Strip leading and trailing whitespace, as Python `str.strip()`. -/
def stripChars (l : List Char) : List Char :=
  ((l.dropWhile isPySpace).reverse.dropWhile isPySpace).reverse

/-- Accumulator loop reading decimal digits left to right. -/
def parseDigitsAux (acc : Nat) : List Char → Option Nat
  | [] => some acc
  | c :: cs => if c.isDigit then parseDigitsAux (acc * 10 + (c.toNat - 48)) cs else none

/-- One or more decimal digits; empty input is not a numeral. -/
def parseDigits : List Char → Option Nat
  | [] => none
  | c :: cs => parseDigitsAux 0 (c :: cs)

/-- Sign handling of Python `int()` on an already-stripped character list. -/
def parsePyIntCore : List Char → Option Int
  | [] => none
  | c :: cs =>
    if c = '-' then (parseDigits cs).map (fun n => -(n : Int))
    else if c = '+' then (parseDigits cs).map (fun n => (n : Int))
    else (parseDigits (c :: cs)).map (fun n => (n : Int))

/-- Models Python `int(s)` on a string: strip surrounding whitespace,
accept an optional sign followed by one or more decimal digits, raise
`ValueError` otherwise (here `none`).  Python's underscore digit
grouping is not modelled; no claim depends on it. -/
def parsePyInt (s : String) : Option Int :=
  parsePyIntCore (stripChars s.data)

/-- Decimal digit characters of a natural number, most significant first. -/
def natDigitChars (n : Nat) : List Char :=
  if _h : n < 10 then [Char.ofNat (48 + n)]
  else natDigitChars (n / 10) ++ [Char.ofNat (48 + n % 10)]
termination_by n
decreasing_by exact Nat.div_lt_self (by omega) (by omega)

/-- Models Python `str` applied to an `int` value: decimal representation
with a leading minus sign for negatives. -/
def pyStr (k : Int) : String :=
  if k < 0 then String.mk ('-' :: natDigitChars k.natAbs)
  else String.mk (natDigitChars k.natAbs)

theorem digitChar_spec (d : Nat) (h : d < 10) :
    (Char.ofNat (48 + d)).isDigit = true ∧ (Char.ofNat (48 + d)).toNat = 48 + d ∧
    isPySpace (Char.ofNat (48 + d)) = false ∧
    Char.ofNat (48 + d) ≠ '-' ∧ Char.ofNat (48 + d) ≠ '+' := by
  interval_cases d <;> exact ⟨by decide, by decide, by decide, by decide, by decide⟩

theorem parseDigitsAux_append (l1 l2 : List Char) :
    ∀ acc, parseDigitsAux acc (l1 ++ l2) =
      (parseDigitsAux acc l1).bind (fun m => parseDigitsAux m l2) := by
  induction l1 with
  | nil => intro acc; rfl
  | cons c cs ih =>
    intro acc
    simp only [List.cons_append, parseDigitsAux]
    split
    · exact ih _
    · rfl

theorem parseDigitsAux_natDigitChars (n : Nat) :
    ∀ acc, parseDigitsAux acc (natDigitChars n) =
      some (acc * 10 ^ (natDigitChars n).length + n) := by
  induction n using Nat.strong_induction_on with
  | _ n ih =>
    intro acc
    rw [natDigitChars.eq_def]
    split
    · rename_i h
      obtain ⟨hdig, htn, -, -, -⟩ := digitChar_spec n h
      simp only [parseDigitsAux, hdig, if_true, htn, List.length_singleton]
      congr 1
      omega
    · rename_i h
      have hlt : n / 10 < n := Nat.div_lt_self (by omega) (by omega)
      rw [parseDigitsAux_append, ih (n / 10) hlt acc]
      obtain ⟨hdig, htn, -, -, -⟩ := digitChar_spec (n % 10) (Nat.mod_lt _ (by omega))
      simp only [Option.some_bind, parseDigitsAux, hdig, if_true, htn,
        List.length_append, List.length_singleton]
      congr 1
      have h48 : 48 + n % 10 - 48 = n % 10 := by omega
      have e : n / 10 * 10 + n % 10 = n := by omega
      rw [h48]
      calc (acc * 10 ^ (natDigitChars (n / 10)).length + n / 10) * 10 + n % 10
          = acc * (10 ^ (natDigitChars (n / 10)).length * 10) + (n / 10 * 10 + n % 10) := by
            ring
        _ = acc * 10 ^ ((natDigitChars (n / 10)).length + 1) + n := by rw [e, pow_succ]

theorem natDigitChars_ne_nil (n : Nat) : natDigitChars n ≠ [] := by
  rw [natDigitChars.eq_def]
  split
  · simp
  · simp

theorem parseDigits_natDigitChars (n : Nat) : parseDigits (natDigitChars n) = some n := by
  cases h : natDigitChars n with
  | nil => exact absurd h (natDigitChars_ne_nil n)
  | cons c cs =>
    show parseDigitsAux 0 (c :: cs) = some n
    rw [← h, parseDigitsAux_natDigitChars]
    simp

theorem mem_natDigitChars (n : Nat) :
    ∀ c ∈ natDigitChars n, ∃ d, d < 10 ∧ c = Char.ofNat (48 + d) := by
  induction n using Nat.strong_induction_on with
  | _ n ih =>
    rw [natDigitChars.eq_def]
    split
    · rename_i h
      intro c hc
      simp only [List.mem_singleton] at hc
      exact ⟨n, h, hc⟩
    · rename_i h
      intro c hc
      rw [List.mem_append] at hc
      rcases hc with h1 | h2
      · exact ih (n / 10) (Nat.div_lt_self (by omega) (by omega)) c h1
      · simp only [List.mem_singleton] at h2
        exact ⟨n % 10, Nat.mod_lt _ (by omega), h2⟩

theorem dropWhile_eq_self (p : Char → Bool) (l : List Char)
    (h : ∀ c ∈ l, p c = false) : l.dropWhile p = l := by
  cases l with
  | nil => rfl
  | cons c cs =>
    rw [List.dropWhile_cons, h c (by simp)]
    simp

theorem stripChars_eq_self (l : List Char) (h : ∀ c ∈ l, isPySpace c = false) :
    stripChars l = l := by
  unfold stripChars
  rw [dropWhile_eq_self _ _ h, dropWhile_eq_self, List.reverse_reverse]
  intro c hc
  exact h c (by simpa using hc)

theorem parsePyInt_pyStr (k : Int) : parsePyInt (pyStr k) = some k := by
  have hmem : ∀ c ∈ natDigitChars k.natAbs, isPySpace c = false := by
    intro c hc
    obtain ⟨d, hd, rfl⟩ := mem_natDigitChars _ c hc
    exact (digitChar_spec d hd).2.2.1
  by_cases hk : k < 0
  · have hdata : (pyStr k).data = '-' :: natDigitChars k.natAbs := by
      unfold pyStr
      rw [if_pos hk]
    unfold parsePyInt
    rw [hdata, stripChars_eq_self]
    · simp only [parsePyIntCore, if_pos rfl, parseDigits_natDigitChars]
      show some (-(k.natAbs : Int)) = some k
      congr 1
      omega
    · intro c hc
      rcases List.mem_cons.mp hc with rfl | hc
      · decide
      · exact hmem c hc
  · have hdata : (pyStr k).data = natDigitChars k.natAbs := by
      unfold pyStr
      rw [if_neg hk]
    unfold parsePyInt
    rw [hdata, stripChars_eq_self _ hmem]
    cases h : natDigitChars k.natAbs with
    | nil => exact absurd h (natDigitChars_ne_nil _)
    | cons c cs =>
      have hc : c ∈ natDigitChars k.natAbs := by rw [h]; simp
      obtain ⟨d, hd, rfl⟩ := mem_natDigitChars _ c hc
      obtain ⟨-, -, -, hm, hp⟩ := digitChar_spec d hd
      simp only [parsePyIntCore]
      rw [if_neg hm, if_neg hp, ← h, parseDigits_natDigitChars]
      show some ((k.natAbs : Nat) : Int) = some k
      congr 1
      omega

/-! ## Version Allocator (generate_report.py) and read-only readers -/

/-- `get_next_version` (generate_report.py lines 26-40): read
`report/version.txt` — an absent file, or content whose parse raises
(the bare `except`), falls back to 0 — then increment, write the new
value back with `str`, and return it.  The counter file is modelled by
its optional content; the pair is (returned version, file afterwards). -/
def get_next_version (file : Option String) : Int × Option String :=
  let version : Int :=
    match file with
    | none => 0
    | some s =>
      match parsePyInt s with
      | some k => k
      | none => 0
  (version + 1, some (pyStr (version + 1)))

/-- `read_version` (send_report_email.py lines 94-101 and
publish_report_confluence.py lines 56-63, identical code): parse the
stripped content of `report/version.txt` as `int`, returning 1 when the
file is absent or the parse raises `ValueError`; the function opens the
file read-only and performs no write, so the file state is returned
unchanged. -/
def read_version (file : Option String) : Int × Option String :=
  match file with
  | none => (1, none)
  | some s =>
    match parsePyInt s with
    | some k => (k, some s)
    | none => (1, some s)

/-- The integer value the counter file currently holds, with the
read phase of `get_next_version` as the reading discipline: absent or
unparsable content counts as 0. -/
def counterValue (file : Option String) : Int :=
  match file with
  | none => 0
  | some s => (parsePyInt s).getD 0

/-- Iterate `get_next_version` n times, collecting the returned versions
and threading the counter file. -/
def runAllocations : Nat → Option String → List Int × Option String
  | 0, file => ([], file)
  | Nat.succ n, file =>
    let r := get_next_version file
    let rest := runAllocations n r.2
    (r.1 :: rest.1, rest.2)

theorem get_next_version_pyStr (k : Int) :
    get_next_version (some (pyStr k)) = (k + 1, some (pyStr (k + 1))) := by
  simp [get_next_version, parsePyInt_pyStr]

theorem counterValue_pyStr (k : Int) : counterValue (some (pyStr k)) = k := by
  simp [counterValue, parsePyInt_pyStr]

theorem get_next_version_val (file : Option String) :
    get_next_version file = (counterValue file + 1, some (pyStr (counterValue file + 1))) := by
  cases file with
  | none => rfl
  | some s =>
    simp only [get_next_version, counterValue]
    cases parsePyInt s <;> rfl

theorem runAllocations_pyStr (n : Nat) :
    ∀ k : Int, runAllocations n (some (pyStr k)) =
      ((List.range n).map (fun i : Nat => k + (i : Int) + 1), some (pyStr (k + n))) := by
  induction n with
  | zero => intro k; simp [runAllocations]
  | succ n ih =>
    intro k
    rw [List.range_succ_eq_map]
    simp only [runAllocations, get_next_version_pyStr, ih (k + 1), List.map_cons,
      List.map_map, Prod.mk.injEq]
    constructor
    · congr 1
      · push_cast; ring
      · apply List.map_congr_left
        intro i _
        simp only [Function.comp_apply]
        push_cast; ring
    · congr 2
      push_cast; ring

theorem cons_one_map_range (m : Nat) :
    ((1 : Int) :: (List.range m).map (fun i : Nat => (1 : Int) + (i : Int) + 1)) =
      (List.range (m + 1)).map (fun i : Nat => (i : Int) + 1) := by
  rw [List.range_succ_eq_map]
  simp only [List.map_cons, List.map_map]
  congr 1
  apply List.map_congr_left
  intro a ha
  simp only [Function.comp_apply]
  omega

/-- C2: Version Allocator `get_next_version`: starting from the state
with no counter file, n successive calls return 1, 2, …, n; each call
writes its return value back to the counter file; a counter file whose
content does not parse as an integer behaves identically to an absent
file; and every allocation moves the persisted counter value up by
exactly 1 (so the persisted value never decreases). -/
theorem C2_next_version_sequence (n : Nat) (s : String) (file : Option String)
    (hs : parsePyInt s = none) :
    (runAllocations n none).1 = (List.range n).map (fun i : Nat => (i : Int) + 1) ∧
    (∀ f : Option String, (get_next_version f).2 = some (pyStr (get_next_version f).1)) ∧
    get_next_version (some s) = get_next_version none ∧
    counterValue (get_next_version file).2 = counterValue file + 1 ∧
    (get_next_version file).1 = counterValue file + 1 := by
  refine ⟨?_, ?_, ?_, ?_, ?_⟩
  · cases n with
    | zero => rfl
    | succ m =>
      have h1 : get_next_version none = (1, some (pyStr 1)) := by
        simp [get_next_version]
      simp only [runAllocations, h1, runAllocations_pyStr]
      exact cons_one_map_range m
  · intro f
    rw [get_next_version_val]
  · simp [get_next_version, hs]
  · simp [get_next_version_val, counterValue_pyStr]
  · simp [get_next_version_val]

/-- Witness for C2: three allocations from an absent counter file return
1, 2, 3, and the corrupted content "abc" behaves like an absent file. -/
theorem C2_next_version_sequence_witness :
    (runAllocations 3 none).1 = [(1 : Int), 2, 3] ∧
    get_next_version (some "abc") = get_next_version none := by
  have h := C2_next_version_sequence 3 "abc" none (by rfl)
  exact ⟨by rw [h.1]; rfl, h.2.2.1⟩

/-- C3: `read_version` (wiki publisher and notifier) never modifies the
counter file in any state; it returns the parsed integer when the
trimmed content parses as an integer and defaults to 1 when the file is
absent or unparsable; and `get_next_version` always increments the
persisted counter by exactly 1. -/
theorem C3_read_version_pure (file : Option String) (s : String) (k : Int) :
    (read_version file).2 = file ∧
    (parsePyInt s = some k → (read_version (some s)).1 = k) ∧
    (parsePyInt s = none → (read_version (some s)).1 = 1) ∧
    (read_version none).1 = 1 ∧
    counterValue (get_next_version file).2 = counterValue file + 1 := by
  refine ⟨?_, ?_, ?_, rfl, ?_⟩
  · cases file with
    | none => rfl
    | some s =>
      simp only [read_version]
      cases parsePyInt s <;> rfl
  · intro h
    simp [read_version, h]
  · intro h
    simp [read_version, h]
  · simp [get_next_version_val, counterValue_pyStr]

/-- Witness for C3 on the counter content "7": the reader leaves the
file unchanged and returns 7; the allocator moves the counter to 8. -/
theorem C3_read_version_pure_witness :
    (read_version (some "7")).2 = some "7" ∧ (read_version (some "7")).1 = 7 ∧
    counterValue (get_next_version (some "7")).2 = counterValue (some "7") + 1 := by
  have h := C3_read_version_pure (some "7") "7" 7
  exact ⟨h.1, h.2.1 (by rfl), h.2.2.2.2⟩

/-! ## Summary computation: status and pass rate in the three stages -/

/-- Status computed by `build_summary` (publish_report_confluence.py
line 102): PASS when both failed and errors are zero, else FAIL. -/
def build_summary_status (passed failed errors skipped : Nat) : String :=
  if failed = 0 ∧ errors = 0 then "PASS" else "FAIL"

/-- Pass rate computed by `build_summary` (publish_report_confluence.py
lines 99-101): `passed / total * 100` when the total is non-zero, else
0. Real (float) arithmetic is modelled by exact rationals. -/
def build_summary_rate (passed failed errors skipped : Nat) : ℚ :=
  let total := passed + failed + errors + skipped
  if total ≠ 0 then (passed : ℚ) / (total : ℚ) * 100 else 0

/-- Status computed by `extract_test_status` (send_report_email.py line
123) once the four counts have been scanned from the log. -/
def extract_test_status_status (passed failed errors skipped : Nat) : String :=
  if failed = 0 ∧ errors = 0 then "PASS" else "FAIL"

/-- Pass rate computed by `extract_test_status` (send_report_email.py
lines 120-121), rationals standing in for floats. -/
def extract_test_status_rate (passed failed errors skipped : Nat) : ℚ :=
  let total := passed + failed + errors + skipped
  if total ≠ 0 then (passed : ℚ) / (total : ℚ) * 100 else 0

/-- Pass rate computed by `enhance_html_report` (generate_report.py
lines 163-165): `total = sum(counts.values()) or 1`, then
`passed / total * 100`. -/
def enhance_html_pass_rate (passed failed errors skipped : Nat) : ℚ :=
  let total := if passed + failed + errors + skipped = 0 then 1
    else passed + failed + errors + skipped
  (passed : ℚ) / (total : ℚ) * 100

/-- `extract_test_status` (send_report_email.py lines 107-135), the
notification-path extractor: an absent pytest log file short-circuits to
the sentinel status "UNKNOWN" (the stage continues, nothing is raised);
otherwise the four counts scanned from the log (abstracted here as the
function's input) determine PASS/FAIL.  The human-readable summary
string is presentation only and is omitted. -/
def extract_test_status (log : Option (Nat × Nat × Nat × Nat)) : String :=
  match log with
  | none => "UNKNOWN"
  | some (passed, failed, errors, skipped) =>
    extract_test_status_status passed failed errors skipped

/-- C4: in every stage, status is PASS iff failed = 0 and errors = 0,
and the pass rate equals 100·passed/total when the total of the four
counts is non-zero and 0 when it is zero — identically for the wiki
publisher (`build_summary`), the notifier (`extract_test_status`) and
the renderer (`enhance_html_report`, which computes only the rate). -/
theorem C4_status_and_rate (p f e s : Nat) :
    build_summary_status p f e s = (if f = 0 ∧ e = 0 then "PASS" else "FAIL") ∧
    extract_test_status_status p f e s = (if f = 0 ∧ e = 0 then "PASS" else "FAIL") ∧
    extract_test_status (some (p, f, e, s)) = (if f = 0 ∧ e = 0 then "PASS" else "FAIL") ∧
    build_summary_rate p f e s =
      (if p + f + e + s = 0 then 0 else 100 * (p : ℚ) / ((p : ℚ) + f + e + s)) ∧
    extract_test_status_rate p f e s =
      (if p + f + e + s = 0 then 0 else 100 * (p : ℚ) / ((p : ℚ) + f + e + s)) ∧
    enhance_html_pass_rate p f e s =
      (if p + f + e + s = 0 then 0 else 100 * (p : ℚ) / ((p : ℚ) + f + e + s)) := by
  have hrate : (if p + f + e + s = 0 then (0 : ℚ)
      else 100 * (p : ℚ) / ((p : ℚ) + f + e + s)) =
      build_summary_rate p f e s := by
    unfold build_summary_rate
    by_cases h : p + f + e + s = 0
    · simp [h]
    · rw [if_pos h, if_neg (by simpa using h)]
      push_cast
      ring
  refine ⟨rfl, rfl, rfl, hrate.symm, hrate.symm, ?_⟩
  unfold enhance_html_pass_rate
  by_cases h : p + f + e + s = 0
  · have hp : p = 0 := by omega
    simp [h, hp]
  · simp only [if_neg h]
    push_cast
    ring

/-! ## XML extraction (publish_report_confluence.py) -/

/-- A test-case node of the JUnit document, represented by which child
markers it carries (`testcase.find(...) is not None` in the source). -/
structure Testcase where
  failure : Bool
  error : Bool
  skipped : Bool
deriving DecidableEq, Repr

/-- The classification loop of `extract_junit_summary`
(publish_report_confluence.py lines 81-89): one iteration per test-case
node, threading the (passed, failed, errors, skipped) counters, with the
if/elif priority failure > error > skipped > passed. -/
def junitLoop : Nat × Nat × Nat × Nat → List Testcase → Nat × Nat × Nat × Nat
  | acc, [] => acc
  | (p, f, e, s), tc :: rest =>
    if tc.failure then junitLoop (p, f + 1, e, s) rest
    else if tc.error then junitLoop (p, f, e + 1, s) rest
    else if tc.skipped then junitLoop (p, f, e, s + 1) rest
    else junitLoop (p + 1, f, e, s) rest

/-- `extract_junit_summary` (publish_report_confluence.py lines 69-91):
an absent junit.xml yields all-zero counts; otherwise the loop above
runs over every test-case node of the document, starting from zeros. -/
def extract_junit_summary (doc : Option (List Testcase)) : Nat × Nat × Nat × Nat :=
  match doc with
  | none => (0, 0, 0, 0)
  | some tcs => junitLoop (0, 0, 0, 0) tcs

theorem junitLoop_acc (tcs : List Testcase) :
    ∀ p f e s, junitLoop (p, f, e, s) tcs =
      (p + (junitLoop (0, 0, 0, 0) tcs).1,
       f + (junitLoop (0, 0, 0, 0) tcs).2.1,
       e + (junitLoop (0, 0, 0, 0) tcs).2.2.1,
       s + (junitLoop (0, 0, 0, 0) tcs).2.2.2) := by
  induction tcs with
  | nil => intro p f e s; simp [junitLoop]
  | cons tc rest ih =>
    intro p f e s
    by_cases h1 : tc.failure = true
    · simp only [junitLoop, h1, if_true]
      rw [ih p (f + 1) e s, ih 0 1 0 0]
      simp only [Prod.mk.injEq]
      omega
    · rw [Bool.not_eq_true] at h1
      by_cases h2 : tc.error = true
      · simp only [junitLoop, h1, h2, Bool.false_eq_true, if_false, if_true]
        rw [ih p f (e + 1) s, ih 0 0 1 0]
        simp only [Prod.mk.injEq]
        omega
      · rw [Bool.not_eq_true] at h2
        by_cases h3 : tc.skipped = true
        · simp only [junitLoop, h1, h2, h3, Bool.false_eq_true, if_false, if_true]
          rw [ih p f e (s + 1), ih 0 0 0 1]
          simp only [Prod.mk.injEq]
          omega
        · rw [Bool.not_eq_true] at h3
          simp only [junitLoop, h1, h2, h3, Bool.false_eq_true, if_false]
          rw [ih (p + 1) f e s, ih 1 0 0 0]
          simp only [Prod.mk.injEq]
          omega

/-- C5: `extract_junit_summary` counts every test-case node exactly
once, classifying by the priority failed > error > skipped > passed: the
failed count is the number of nodes carrying a failure marker (so a node
with both a failure and an error marker counts as failed, never as error
or passed), the error count is the number of nodes with an error marker
but no failure marker, the skipped count is the number with a skipped
marker and no failure or error marker, the passed count is the number
with none of the markers, and the four counts sum to the number of
test-case nodes. -/
theorem C5_junit_classification (tcs : List Testcase) :
    extract_junit_summary (some tcs) =
      (tcs.countP (fun tc => !tc.failure && !tc.error && !tc.skipped),
       tcs.countP (fun tc => tc.failure),
       tcs.countP (fun tc => !tc.failure && tc.error),
       tcs.countP (fun tc => !tc.failure && !tc.error && tc.skipped)) ∧
    (extract_junit_summary (some tcs)).1 + (extract_junit_summary (some tcs)).2.1 +
      (extract_junit_summary (some tcs)).2.2.1 + (extract_junit_summary (some tcs)).2.2.2 =
      tcs.length := by
  have key : extract_junit_summary (some tcs) =
      (tcs.countP (fun tc => !tc.failure && !tc.error && !tc.skipped),
       tcs.countP (fun tc => tc.failure),
       tcs.countP (fun tc => !tc.failure && tc.error),
       tcs.countP (fun tc => !tc.failure && !tc.error && tc.skipped)) := by
    show junitLoop (0, 0, 0, 0) tcs = _
    induction tcs with
    | nil => simp [junitLoop]
    | cons tc rest ih =>
      by_cases h1 : tc.failure = true
      · simp only [junitLoop, h1, if_true]
        rw [junitLoop_acc rest 0 1 0 0, ih]
        simp [List.countP_cons, h1] <;> omega
      · rw [Bool.not_eq_true] at h1
        by_cases h2 : tc.error = true
        · simp only [junitLoop, h1, h2, Bool.false_eq_true, if_false, if_true]
          rw [junitLoop_acc rest 0 0 1 0, ih]
          simp [List.countP_cons, h1, h2] <;> omega
        · rw [Bool.not_eq_true] at h2
          by_cases h3 : tc.skipped = true
          · simp only [junitLoop, h1, h2, h3, Bool.false_eq_true, if_false, if_true]
            rw [junitLoop_acc rest 0 0 0 1, ih]
            simp [List.countP_cons, h1, h2, h3] <;> omega
          · rw [Bool.not_eq_true] at h3
            simp only [junitLoop, h1, h2, h3, Bool.false_eq_true, if_false]
            rw [junitLoop_acc rest 1 0 0 0, ih]
            simp [List.countP_cons, h1, h2, h3] <;> omega
  refine ⟨key, ?_⟩
  rw [key]
  show tcs.countP (fun tc => !tc.failure && !tc.error && !tc.skipped) +
      tcs.countP (fun tc => tc.failure) +
      tcs.countP (fun tc => !tc.failure && tc.error) +
      tcs.countP (fun tc => !tc.failure && !tc.error && tc.skipped) = tcs.length
  clear key
  induction tcs with
  | nil => rfl
  | cons tc rest ih =>
    simp only [List.countP_cons, List.length_cons]
    by_cases h1 : tc.failure = true <;> by_cases h2 : tc.error = true <;>
      by_cases h3 : tc.skipped = true <;>
        simp [h1, h2, h3] <;> omega

/-! ## Attachment Publisher (rtm_attach_reports.py) -/

/-- Outcome of one HTTP upload request: a response with a status code,
or a raised exception. -/
inductive UploadOutcome where
  | resp (status : Nat)
  | exn
deriving DecidableEq, Repr

/-- Success test of `attach_file` (rtm_attach_reports.py line 72):
`res.status_code in (200, 201)`; a raised exception never succeeds. -/
def attemptOk (o : UploadOutcome) : Bool :=
  match o with
  | .resp status => status = 200 || status = 201
  | .exn => false

/-- Observable events of an upload routine: the key-file write, each
HTTP attempt (numbered), and each sleep (seconds). -/
inductive AttachEv where
  | writeKeyFile (key : String)
  | httpAttempt (file : String) (attempt : Nat)
  | sleepSec (n : Nat)
deriving DecidableEq, Repr

/-- Result of an upload routine: success at a given attempt, or a fatal
abort (SystemExit / uncaught raise, non-zero process exit). -/
inductive AttachResult where
  | ok (attempt : Nat)
  | fatal (msg : String)
deriving DecidableEq, Repr

/-- The retry loop of `attach_file` (rtm_attach_reports.py lines 66-84)
over the remaining attempt numbers: return on the first 200/201 status;
otherwise sleep 2 seconds and move to the next attempt; raise SystemExit
when the attempts are exhausted. -/
def attachGo (file : String) (o : Nat → UploadOutcome) : List Nat → AttachResult × List AttachEv
  | [] => (.fatal ("Failed to upload " ++ file ++ " after 3 attempts."), [])
  | i :: rest =>
    if attemptOk (o i) then (.ok i, [.httpAttempt file i])
    else
      let r := attachGo file o rest
      (r.1, .httpAttempt file i :: .sleepSec 2 :: r.2)

/-- `attach_file` (rtm_attach_reports.py lines 52-84): a missing file is
an immediate SystemExit; otherwise attempts 1, 2, 3 run through the
retry loop, attempt i drawing outcome `o i`. -/
def attach_file (file : String) (fileExists : Bool) (o : Nat → UploadOutcome) :
    AttachResult × List AttachEv :=
  if fileExists then attachGo file o [1, 2, 3]
  else (.fatal ("File not found: " ++ file), [])

/-- Stage-level result of the attach script's module flow. -/
inductive MainResult where
  | success
  | fatal (msg : String)
deriving DecidableEq, Repr

/-- Module main flow of rtm_attach_reports.py (lines 89-98): the script
first overwrites rtm_execution_key.txt with the supplied issue key, then
attaches the PDF, then the HTML; a fatal `attach_file` ends the stage at
that point.  Returns the stage result, the key file afterwards (its
prior content `keyFile0` is discarded by the write), and the event
trace. -/
def rtm_attach_main (issueKey pdfPath htmlPath : String)
    (pdfExists htmlExists : Bool) (pdfO htmlO : Nat → UploadOutcome)
    (keyFile0 : Option String) : MainResult × Option String × List AttachEv :=
  let keyFile : Option String := some issueKey
  let r1 := attach_file pdfPath pdfExists pdfO
  match r1.1 with
  | .fatal m => (.fatal m, keyFile, .writeKeyFile issueKey :: r1.2)
  | .ok _ =>
    let r2 := attach_file htmlPath htmlExists htmlO
    match r2.1 with
    | .fatal m => (.fatal m, keyFile, .writeKeyFile issueKey :: (r1.2 ++ r2.2))
    | .ok _ => (.success, keyFile, .writeKeyFile issueKey :: (r1.2 ++ r2.2))

/-! ## Wiki Publisher attachment upload (publish_report_confluence.py) -/

/-- Success test of a `requests` response object: `res.ok` is true for
status codes below 400; a raised exception is never ok. -/
def respOk (o : UploadOutcome) : Bool :=
  match o with
  | .resp status => status < 400
  | .exn => false

/-- `upload_attachment` (publish_report_confluence.py lines 149-171): a
missing attachment file is an immediate `sys.exit`; otherwise one fixed
2-second sleep, then exactly one upload request (outcome `o 1`); a
non-ok response triggers `raise_for_status()` and an exception
propagates — either way the script's entry point turns it into exit
code 1.  There is no loop: outcomes of hypothetical later attempts
(`o 2`, …) are never consulted. -/
def upload_attachment (file : String) (fileExists : Bool) (o : Nat → UploadOutcome) :
    AttachResult × List AttachEv :=
  if fileExists then
    if respOk (o 1) then (.ok 1, [.sleepSec 2, .httpAttempt file 1])
    else (.fatal ("Upload failed: " ++ file), [.sleepSec 2, .httpAttempt file 1])
  else (.fatal ("Missing attachment: " ++ file), [])

/-! ## Test-Management Publisher (rtm_upload_results.py) -/

/-- Terminal condition of the modelled prefix of `main`
(rtm_upload_results.py lines 44-91): SystemExit on a missing token, a
plain `return` after a failed import response, or proceeding into the
polling phase (the rest of `main`, not needed by the claims). -/
inductive RtmUploadStep where
  | fatalMissingToken
  | softFailReturn
  | proceeds
deriving DecidableEq, Repr

/-- Process exit code of each terminal step: `raise SystemExit(msg)`
exits with code 1; a plain `return` from `main` reaches the end of the
script, exit code 0; `proceeds` has not terminated. -/
def stepExit : RtmUploadStep → Option Nat
  | .fatalMissingToken => some 1
  | .softFailReturn => some 0
  | .proceeds => none

/-- Prefix of `main` in rtm_upload_results.py (lines 44-91): an unset or
empty RTM_API_TOKEN raises SystemExit before any network call; otherwise
the import POST is made (one network call); a response status other than
200/202 prints the error body and returns; otherwise main proceeds to
the polling phase.  Second component: number of network calls made. -/
def rtm_upload_main (token : Option String) (initStatus : Nat) : RtmUploadStep × Nat :=
  if token.getD "" = "" then (.fatalMissingToken, 0)
  else if initStatus = 200 ∨ initStatus = 202 then (.proceeds, 1)
  else (.softFailReturn, 1)

/-! ## Report Renderer gate (generate_report.py) -/

/-- Terminal result of `enhance_html_report`. -/
inductive RenderResult where
  | fatal (msg : String)
  | rendered (version : Int)
deriving DecidableEq, Repr

/-- `enhance_html_report` (generate_report.py lines 152-194): a missing
input report/report.html raises SystemExit before anything is touched;
otherwise (parsing and rendering of the HTML abstracted away, the input
standing for the counts it yields) the run allocates the next version —
the single `get_next_version` call of the run — and writes the versioned
artifacts.  Returns the result and the counter file afterwards. -/
def enhance_html_report (input : Option (Nat × Nat × Nat × Nat))
    (versionFile : Option String) : RenderResult × Option String :=
  match input with
  | none => (.fatal "Base HTML report not found", versionFile)
  | some _ =>
    let r := get_next_version versionFile
    (.rendered r.1, r.2)

/-! ## Notifier link resolution (send_report_email.py) -/

/-- Python `"".rstrip("/")`: drop trailing slash characters. -/
def rstripSlash (s : String) : String :=
  String.mk ((s.data.reverse.dropWhile (fun c => c = '/')).reverse)

/-- Python `str.strip()` on a file's content. -/
def pyStrip (s : String) : String :=
  String.mk (stripChars s.data)

/-- `read_jira_execution_from_rtm` (send_report_email.py lines 60-71):
an empty JIRA_URL (after rstrip of slashes) yields ""; else, when
rtm_execution_key.txt exists and its stripped content is non-empty, the
derived link base + "/browse/" + key; else "". -/
def read_jira_execution_from_rtm (jiraUrlEnv : String) (rtmKeyFile : Option String) : String :=
  let jiraBase := rstripSlash jiraUrlEnv
  if jiraBase = "" then ""
  else
    match rtmKeyFile with
    | some content =>
      let rtmKey := pyStrip content
      if rtmKey ≠ "" then jiraBase ++ "/browse/" ++ rtmKey else ""
    | none => ""

/-- `read_jira_url_fallback` (send_report_email.py lines 77-88): the
JIRA_EXECUTION_URL value if non-empty, else the stripped content of
report/jira_url.txt if that file exists, else "". -/
def read_jira_url_fallback (jiraExecutionUrlEnv : String)
    (jiraLinkFile : Option String) : String :=
  if jiraExecutionUrlEnv ≠ "" then jiraExecutionUrlEnv
  else
    match jiraLinkFile with
    | some content => pyStrip content
    | none => ""

/-- The `jira_url` computation in `main` (send_report_email.py lines
257-261): the Python `or` chain returning its first non-empty operand —
derived-from-key value, then the JIRA_EXECUTION_URL value, then the
fallback chain. -/
def notifier_jira_url (jiraUrlEnv jiraExecutionUrlEnv : String)
    (rtmKeyFile jiraLinkFile : Option String) : String :=
  let a := read_jira_execution_from_rtm jiraUrlEnv rtmKeyFile
  if a ≠ "" then a
  else if jiraExecutionUrlEnv ≠ "" then jiraExecutionUrlEnv
  else read_jira_url_fallback jiraExecutionUrlEnv jiraLinkFile

/-! ## Claim theorems for the publishers and the notifier -/

/-- C6: `attach_file` — when the first two attempts fail (non-2xx status
or exception) and the third succeeds with status 200 or 201, the call
returns successfully with no fatal abort, a fixed 2-second sleep
separating consecutive attempts; when all three attempts fail, the stage
aborts fatally (SystemExit), again with a 2-second sleep after every
failed attempt. -/
theorem C6_attach_retry (file : String) (o oAll : Nat → UploadOutcome)
    (h1 : attemptOk (o 1) = false) (h2 : attemptOk (o 2) = false)
    (h3 : attemptOk (o 3) = true)
    (hAll : ∀ i, attemptOk (oAll i) = false) :
    attach_file file true o =
      (.ok 3, [.httpAttempt file 1, .sleepSec 2, .httpAttempt file 2, .sleepSec 2,
        .httpAttempt file 3]) ∧
    attach_file file true oAll =
      (.fatal ("Failed to upload " ++ file ++ " after 3 attempts."),
       [.httpAttempt file 1, .sleepSec 2, .httpAttempt file 2, .sleepSec 2,
        .httpAttempt file 3, .sleepSec 2]) := by
  constructor
  · simp [attach_file, attachGo, h1, h2, h3]
  · simp [attach_file, attachGo, hAll 1, hAll 2, hAll 3]

/-- Witness for C6: fail, fail, succeed gives success at attempt 3;
three exceptions give the fatal abort. -/
theorem C6_attach_retry_witness :
    attach_file "report.pdf" true
        (fun i => if i = 3 then UploadOutcome.resp 200 else UploadOutcome.resp 500) =
      (.ok 3, [.httpAttempt "report.pdf" 1, .sleepSec 2, .httpAttempt "report.pdf" 2,
        .sleepSec 2, .httpAttempt "report.pdf" 3]) ∧
    attach_file "report.pdf" true (fun _ => UploadOutcome.exn) =
      (.fatal ("Failed to upload " ++ "report.pdf" ++ " after 3 attempts."),
       [.httpAttempt "report.pdf" 1, .sleepSec 2, .httpAttempt "report.pdf" 2,
        .sleepSec 2, .httpAttempt "report.pdf" 3, .sleepSec 2]) :=
  C6_attach_retry "report.pdf" _ _ (by rfl) (by rfl) (by rfl) (fun _ => rfl)

/-- C10: the attach stage overwrites the execution-key reference file
with the supplied issue key before any upload attempt — the write is the
first event of every trace and the final key-file state is the new key
for every combination of outcomes — and when the PDF upload exhausts its
retries the stage aborts fatally with the file still holding the new
key: the observable file-system state changes even on error. -/
theorem C10_key_overwrite (issueKey pdfPath htmlPath : String)
    (pdfExists htmlExists : Bool) (pdfO htmlO : Nat → UploadOutcome)
    (keyFile0 : Option String)
    (hAll : ∀ i, attemptOk (pdfO i) = false) :
    (∀ (pdfO' htmlO' : Nat → UploadOutcome) (pe he : Bool),
      (rtm_attach_main issueKey pdfPath htmlPath pe he pdfO' htmlO' keyFile0).2.1 =
        some issueKey ∧
      (rtm_attach_main issueKey pdfPath htmlPath pe he pdfO' htmlO' keyFile0).2.2.head? =
        some (.writeKeyFile issueKey)) ∧
    (∃ m, (rtm_attach_main issueKey pdfPath htmlPath pdfExists htmlExists
      pdfO htmlO keyFile0).1 = .fatal m) := by
  constructor
  · intro pdfO' htmlO' pe he
    cases h1 : (attach_file pdfPath pe pdfO').1 with
    | fatal m => constructor <;> simp [rtm_attach_main, h1]
    | ok i =>
      cases h2 : (attach_file htmlPath he htmlO').1 with
      | fatal m => constructor <;> simp [rtm_attach_main, h1, h2]
      | ok j => constructor <;> simp [rtm_attach_main, h1, h2]
  · cases pdfExists with
    | true =>
      have hat : (attach_file pdfPath true pdfO).1 =
          .fatal ("Failed to upload " ++ pdfPath ++ " after 3 attempts.") := by
        simp [attach_file, attachGo, hAll 1, hAll 2, hAll 3]
      exact ⟨"Failed to upload " ++ pdfPath ++ " after 3 attempts.",
        by simp [rtm_attach_main, hat]⟩
    | false =>
      have hat : (attach_file pdfPath false pdfO).1 =
          .fatal ("File not found: " ++ pdfPath) := by
        simp [attach_file]
      exact ⟨"File not found: " ++ pdfPath, by simp [rtm_attach_main, hat]⟩

/-- Witness for C10: with a stale key on disk and a PDF upload that
fails every attempt, the stage aborts fatally and the key file holds the
newly written key. -/
theorem C10_key_overwrite_witness :
    (rtm_attach_main "RT-105" "report.pdf" "report.html" true true
        (fun _ => UploadOutcome.resp 500) (fun _ => UploadOutcome.resp 200)
        (some "RT-10")).2.1 = some "RT-105" ∧
    (∃ m, (rtm_attach_main "RT-105" "report.pdf" "report.html" true true
        (fun _ => UploadOutcome.resp 500) (fun _ => UploadOutcome.resp 200)
        (some "RT-10")).1 = .fatal m) := by
  have h := C10_key_overwrite "RT-105" "report.pdf" "report.html" true true
      (fun _ => UploadOutcome.resp 500) (fun _ => UploadOutcome.resp 200)
      (some "RT-10") (fun _ => by rfl)
  exact ⟨(h.1 (fun _ => UploadOutcome.resp 500) (fun _ => UploadOutcome.resp 200)
    true true).1, h.2⟩

/-- C7 counterexample: for an outcome sequence that fails on the first
attempt and would succeed on a second, `upload_attachment` aborts
fatally — the claimed retry (3 to 5 attempts, success after an initial
failure within the bound) does not happen. -/
theorem C7_counterexample :
    (upload_attachment "report.pdf" true
        (fun i => if i = 1 then UploadOutcome.resp 500 else UploadOutcome.resp 200)).1 =
      AttachResult.fatal ("Upload failed: " ++ "report.pdf") ∧
    respOk ((fun i => if i = 1 then UploadOutcome.resp 500 else UploadOutcome.resp 200) 2)
      = true := by
  constructor <;> rfl

/-- C7 amended: the wiki publisher's `upload_attachment` makes exactly
one upload attempt per file, preceded by one fixed 2-second sleep; it
succeeds iff that single attempt's response is ok (status < 400); any
failed upload is immediately fatal (non-zero exit via the entry point),
with no retry. -/
theorem C7_upload_single_attempt (file : String) (o : Nat → UploadOutcome) :
    (upload_attachment file true o).2 = [.sleepSec 2, .httpAttempt file 1] ∧
    ((upload_attachment file true o).1 = .ok 1 ↔ respOk (o 1) = true) ∧
    (respOk (o 1) = false →
      (upload_attachment file true o).1 = .fatal ("Upload failed: " ++ file)) := by
  unfold upload_attachment
  by_cases h : respOk (o 1) = true
  · simp [h]
  · have h' : respOk (o 1) = false := by simpa using h
    simp [h']

/-- Witness for C7 amended: a single failing attempt is immediately
fatal, after the one 2-second sleep. -/
theorem C7_upload_single_attempt_witness :
    (upload_attachment "report.pdf" true (fun _ => UploadOutcome.resp 500)).2 =
      [.sleepSec 2, .httpAttempt "report.pdf" 1] ∧
    (upload_attachment "report.pdf" true (fun _ => UploadOutcome.resp 500)).1 =
      .fatal ("Upload failed: " ++ "report.pdf") := by
  have h := C7_upload_single_attempt "report.pdf" (fun _ => UploadOutcome.resp 500)
  exact ⟨h.1, h.2.2 (by rfl)⟩

/-- C8 counterexample: with a token present and the initial import
request answered with HTTP 500, the stage stops via a plain return and
the process exit code is 0 — not the non-zero exit the claim states. -/
theorem C8_counterexample :
    rtm_upload_main (some "token") 500 = (.softFailReturn, 1) ∧
    stepExit (rtm_upload_main (some "token") 500).1 = some 0 := by
  constructor <;> rfl

/-- C8 amended: a missing (or empty) RTM_API_TOKEN is fatal with exit
code 1 before any network call is made; a non-success status (other than
200/202) on the initial import request makes the stage stop after that
single call but terminate with exit code 0 — a soft log-and-return, not
a non-zero exit; a 200/202 status proceeds to the polling phase. -/
theorem C8_token_and_status (token : Option String) (st : Nat) :
    (token.getD "" = "" →
      rtm_upload_main token st = (.fatalMissingToken, 0) ∧
      stepExit .fatalMissingToken = some 1) ∧
    (token.getD "" ≠ "" → ¬(st = 200 ∨ st = 202) →
      rtm_upload_main token st = (.softFailReturn, 1) ∧
      stepExit .softFailReturn = some 0) ∧
    (token.getD "" ≠ "" → (st = 200 ∨ st = 202) →
      rtm_upload_main token st = (.proceeds, 1)) := by
  refine ⟨?_, ?_, ?_⟩
  · intro h
    exact ⟨by simp [rtm_upload_main, h], rfl⟩
  · intro h hst
    exact ⟨by simp [rtm_upload_main, h, hst], rfl⟩
  · intro h hst
    simp [rtm_upload_main, h, hst]

/-- Witness for C8 amended, covering all three terminal shapes. -/
theorem C8_token_and_status_witness :
    rtm_upload_main none 200 = (.fatalMissingToken, 0) ∧
    rtm_upload_main (some "tok") 500 = (.softFailReturn, 1) ∧
    rtm_upload_main (some "tok") 202 = (.proceeds, 1) :=
  ⟨((C8_token_and_status none 200).1 (by rfl)).1,
   ((C8_token_and_status (some "tok") 500).2.1 (by decide) (by decide)).1,
   (C8_token_and_status (some "tok") 202).2.2 (by decide) (Or.inr rfl)⟩

/-- C9 counterexample: with the pytest log absent the notifier's
extractor reports the sentinel status "UNKNOWN", whereas the status
determined by all-zero counts is "PASS" — so the notification path does
not report the status determined by an all-zero summary. -/
theorem C9_counterexample :
    extract_test_status none = "UNKNOWN" ∧
    extract_test_status (some (0, 0, 0, 0)) = "PASS" ∧
    extract_test_status none ≠ extract_test_status (some (0, 0, 0, 0)) :=
  ⟨rfl, rfl, by decide⟩

/-- C9 amended: an absent results source is non-fatal on the reporting
paths but they differ — the notifier's extractor returns the sentinel
status "UNKNOWN" (not the all-zero-counts status), the wiki publisher's
extractor yields the all-zero summary (whose status function gives
PASS), while the renderer treats its missing input HTML report as fatal,
aborting before rendering and leaving the version counter untouched. -/
theorem C9_missing_source (versionFile : Option String) :
    extract_test_status none = "UNKNOWN" ∧
    extract_junit_summary none = (0, 0, 0, 0) ∧
    build_summary_status 0 0 0 0 = "PASS" ∧
    enhance_html_report none versionFile =
      (.fatal "Base HTML report not found", versionFile) :=
  ⟨rfl, rfl, rfl, rfl⟩

/-- C1 counterexample: with JIRA_URL = "https://jira.example.com", a
saved execution key "RT-7" (so the derived value is non-empty) and the
non-empty direct override JIRA_EXECUTION_URL =
"https://override.example.com/exec", the link placed in the email is the
derived value, not the direct override. -/
theorem C1_counterexample :
    read_jira_execution_from_rtm "https://jira.example.com" (some "RT-7") =
      "https://jira.example.com/browse/RT-7" ∧
    notifier_jira_url "https://jira.example.com" "https://override.example.com/exec"
        (some "RT-7") none = "https://jira.example.com/browse/RT-7" ∧
    notifier_jira_url "https://jira.example.com" "https://override.example.com/exec"
        (some "RT-7") none ≠ "https://override.example.com/exec" := by
  refine ⟨by rfl, by rfl, by decide⟩

/-- C1 amended: in the notifier's issue-tracker link resolution the
derived-from-key value takes precedence: whenever it is non-empty the
email link equals it, even when the direct JIRA_EXECUTION_URL override
is also non-empty; the direct override is used only when the derived
value is empty. -/
theorem C1_derived_wins (jiraUrlEnv jiraExecutionUrlEnv : String)
    (rtmKeyFile jiraLinkFile : Option String)
    (h : read_jira_execution_from_rtm jiraUrlEnv rtmKeyFile ≠ "") :
    notifier_jira_url jiraUrlEnv jiraExecutionUrlEnv rtmKeyFile jiraLinkFile =
      read_jira_execution_from_rtm jiraUrlEnv rtmKeyFile ∧
    (∀ (j o : String) (r l : Option String),
      read_jira_execution_from_rtm j r = "" → o ≠ "" →
      notifier_jira_url j o r l = o) := by
  constructor
  · unfold notifier_jira_url
    simp [h]
  · intro j o r l h0 ho
    unfold notifier_jira_url
    simp [h0, ho]

/-- Witness for C1 amended, at the counterexample's configuration. -/
theorem C1_derived_wins_witness :
    notifier_jira_url "https://jira.example.com" "https://override.example.com/exec"
        (some "RT-7") none =
      read_jira_execution_from_rtm "https://jira.example.com" (some "RT-7") ∧
    notifier_jira_url "https://jira.example.com" "https://override.example.com/exec"
        none none = "https://override.example.com/exec" := by
  have h := C1_derived_wins "https://jira.example.com" "https://override.example.com/exec"
      (some "RT-7") none (by decide)
  exact ⟨h.1, h.2 "https://jira.example.com" "https://override.example.com/exec"
    none none (by rfl) (by decide)⟩

end Pipeline
